import Mathlib

/-!
Shallow embedding of the BookBridge request-lifecycle core
(src/components/dashboard: FreeBooks.tsx with its two BooksList variants,
MyRequests.tsx in both variants, ContactExchange.tsx, Notifications.tsx).

The external supabase store is modelled as an explicit state `DB` holding the
request ledger, the notification outbox and the contact-exchange table.
Each event handler becomes a pure function from the pre-state (plus oracles for
the outcomes of the individual store calls, and fresh ids / timestamps that the
store would generate) to the post-state paired with the user-visible outcome
(the toast that the handler fires, or silence).
All ids and timestamps are strings, as in the source (uuids / ISO dates).
-/

namespace BookBridge

/-- Status column of a book_requests row: pending / approved / rejected. -/
inductive ReqStatus where
  | pending
  | approved
  | rejected
deriving DecidableEq

/-- The donor's decision argument of handleRequestResponse:
the TS literal type 'approved' | 'rejected'. -/
inductive Decision where
  | approved
  | rejected
deriving DecidableEq

/-- The status value stored by handleRequestResponse for a decision. -/
def Decision.toStatus : Decision → ReqStatus
  | .approved => ReqStatus.approved
  | .rejected => ReqStatus.rejected

/-- String interpolation of the decision, as in template literals
using the raw status value: "approved" / "rejected". -/
def Decision.text : Decision → String
  | .approved => "approved"
  | .rejected => "rejected"

/-- The capitalised form used in notification titles:
status === 'approved' ? 'Approved' : 'Rejected'. -/
def Decision.label : Decision → String
  | .approved => "Approved"
  | .rejected => "Rejected"

/-- A row of the books table, with the fields of the extended
BooksList Book interface. -/
structure Book where
  id : String
  title : String
  author : String
  description : String
  coverurl : String
  status : String
  isfeatured : Bool
  donorid : String
  category : String
  condition : String
deriving DecidableEq

/-- A row of the book_requests table. The insert in handleRequestBook passes
book_id, requester_id, donor_id and message; id, the pending default status and
the timestamps are filled in by the store. -/
structure BookRequest where
  id : String
  book_id : String
  requester_id : String
  donor_id : String
  message : String
  status : ReqStatus
  created_at : String
  updated_at : String
deriving DecidableEq

/-- A row of the notifications table. Inserts pass userid, type, title and
message; the store defaults read to false and generates id. -/
structure Notification where
  id : String
  userid : String
  type : String
  title : String
  message : String
  read : Bool
deriving DecidableEq

/-- A row of the contact_exchanges table: one row per request_id, each party's
phone / address independently nullable until that party shares. -/
structure ContactExchange where
  id : String
  request_id : String
  donor_phone : Option String
  donor_address : Option String
  requester_phone : Option String
  requester_address : Option String
deriving DecidableEq

/-- The external store state visible to the handlers: the request ledger,
the notification outbox and the contact-exchange table. -/
structure DB where
  requests : List BookRequest
  notifications : List Notification
  exchanges : List ContactExchange
deriving DecidableEq

/-- The user-visible outcome of a handler run: which toast it ended with
(or that it returned silently before doing anything). -/
inductive Outcome where
  | noOp
  | alreadyRequested
  | requestSent
  | updated
  | shared
  | errorToast
deriving DecidableEq

/-- Oracles for the store calls made during one handleRequestBook run:
whether the duplicate-check query fails with a store error, whether the
book_requests insert succeeds, and whether the two notification writes
succeed. -/
structure StoreEnv where
  checkErr : Bool
  insertReqOk : Bool
  notifOk : Bool
  notif2Ok : Bool
deriving DecidableEq

/-- PostgREST .single(): the data field is the row when the result set has
exactly one row, and null (together with an error) otherwise. -/
def singleRow {α : Type} : List α → Option α
  | [x] => some x
  | _ => none

/-- The rows matched by the duplicate check in handleRequestBook:
book_id = book.id, requester_id = user.id, status = 'pending'. -/
def matchingPending (db : DB) (bookId requesterId : String) : List BookRequest :=
  db.requests.filter fun r =>
    decide (r.book_id = bookId ∧ r.requester_id = requesterId ∧ r.status = ReqStatus.pending)

/-- The auto-populated request message passed to the book_requests insert. -/
def requestMessage (book : Book) : String :=
  "I would like to borrow \"" ++ book.title ++ "\" by " ++ book.author ++ "."

/-- The book_requests row created by a successful handleRequestBook insert:
the handler passes book_id / requester_id / donor_id / message, the store
supplies the id, the pending default status and the timestamps. -/
def newRequest (book : Book) (requesterId newId now : String) : BookRequest :=
  { id := newId
    book_id := book.id
    requester_id := requesterId
    donor_id := book.donorid
    message := requestMessage book
    status := ReqStatus.pending
    created_at := now
    updated_at := now }

/-- handleRequestBook of the base BooksList variant (FreeBooks.tsx, second
document). The duplicate-check error is discarded (only data is destructured);
the notifications insert error is thrown, so it surfaces as the generic
error toast even though the request row is already committed. -/
def handleRequestBookBase (env : StoreEnv) (db : DB) (user : Option String)
    (book : Book) (newReqId newNotifId now : String) : DB × Outcome :=
  match user with
  | none => (db, Outcome.noOp)
  | some uid =>
    let existingRequest : Option BookRequest :=
      if env.checkErr then none else singleRow (matchingPending db book.id uid)
    match existingRequest with
    | some _ => (db, Outcome.alreadyRequested)
    | none =>
      if env.insertReqOk then
        let db1 : DB := { db with requests := db.requests ++ [newRequest book uid newReqId now] }
        if env.notifOk then
          let donorNotif : Notification :=
            { id := newNotifId
              userid := book.donorid
              type := "book_request"
              title := "New Book Request"
              message := "Someone wants to borrow your book \"" ++ book.title ++ "\""
              read := false }
          ({ db1 with notifications := db1.notifications ++ [donorNotif] }, Outcome.requestSent)
        else
          (db1, Outcome.errorToast)
      else
        (db, Outcome.errorToast)

/-- createNotification of the extended variants: the create_book_notification
RPC (semantically an insert) wrapped in try/catch, so a failing write is
logged and swallowed and leaves the outbox unchanged. -/
def createNotification (ok : Bool) (db : DB) (newId userId ty titl msg : String) : DB :=
  if ok then
    { db with notifications := db.notifications ++
        [{ id := newId, userid := userId, type := ty, title := titl, message := msg,
           read := false }] }
  else db

/-- handleRequestBook of the extended BooksList variant (FreeBooks.tsx, third
document). Guarded by the requestingBooks in-flight set; notification writes
go through the error-swallowing createNotification, first to the donor
(book_request) and then to the requester (request_sent). -/
def handleRequestBookExt (env : StoreEnv) (db : DB) (user : Option String)
    (requesting : Bool) (book : Book) (newReqId nid1 nid2 now : String) : DB × Outcome :=
  match user with
  | none => (db, Outcome.noOp)
  | some uid =>
    if requesting then (db, Outcome.noOp)
    else
      let existingRequest : Option BookRequest :=
        if env.checkErr then none else singleRow (matchingPending db book.id uid)
      match existingRequest with
      | some _ => (db, Outcome.alreadyRequested)
      | none =>
        if env.insertReqOk then
          let db1 : DB := { db with requests := db.requests ++ [newRequest book uid newReqId now] }
          let db2 : DB := createNotification env.notifOk db1 nid1 book.donorid
            "book_request" "New Book Request"
            ("Someone wants to borrow your book \"" ++ book.title ++ "\"")
          let db3 : DB := createNotification env.notif2Ok db2 nid2 uid
            "request_sent" "Request Sent"
            ("Your request for \"" ++ book.title ++ "\" has been sent to the donor.")
          (db3, Outcome.requestSent)
        else
          (db, Outcome.errorToast)

/-- handleRequestResponse of the base MyRequests variant: updates only the
status column of the row with the given id (no status = 'pending' condition,
no updated_at), then inserts the request_response notification for the
requester, whose error is thrown. -/
def handleRequestResponseBase (updOk notifOk : Bool) (db : DB)
    (requestId : String) (d : Decision) (requesterId bookTitle newNotifId : String) :
    DB × Outcome :=
  if updOk then
    let db1 : DB := { db with requests := db.requests.map fun r =>
      if r.id = requestId then { r with status := d.toStatus } else r }
    if notifOk then
      let notif : Notification :=
        { id := newNotifId
          userid := requesterId
          type := "request_response"
          title := "Book Request " ++ d.label
          message := "Your request for \"" ++ bookTitle ++ "\" has been " ++ d.text ++ "."
          read := false }
      ({ db1 with notifications := db1.notifications ++ [notif] }, Outcome.updated)
    else
      (db1, Outcome.errorToast)
  else
    (db, Outcome.errorToast)

/-- handleRequestResponse of the extended MyRequests variant (MyRequests.tsx):
guarded by the processingRequests in-flight set; updates status and updated_at
of the row with the given id (again with no status = 'pending' condition);
notifications go through the error-swallowing createNotification, first the
request_response to the requester, then the request_action acknowledgement to
the signed-in donor. -/
def handleRequestResponseExt (updOk notifOk notif2Ok : Bool) (db : DB)
    (user : Option String) (processing : Bool)
    (requestId : String) (d : Decision) (requesterId bookTitle nid1 nid2 now : String) :
    DB × Outcome :=
  if processing then (db, Outcome.noOp)
  else if updOk then
    let db1 : DB := { db with requests := db.requests.map fun r =>
      if r.id = requestId then { r with status := d.toStatus, updated_at := now } else r }
    let db2 : DB := createNotification notifOk db1 nid1 requesterId
      "request_response" ("Book Request " ++ d.label)
      ("Your request for \"" ++ bookTitle ++ "\" has been " ++ d.text ++ ".")
    let db3 : DB :=
      match user with
      | some uid => createNotification notif2Ok db2 nid2 uid
          "request_action" "Request Updated"
          ("You have " ++ d.text ++ " the request for \"" ++ bookTitle ++ "\".")
      | none => db2
    (db3, Outcome.updated)
  else
    (db, Outcome.errorToast)

/-- JS falsiness of s.trim(): true exactly when the string is empty or all
whitespace. -/
def isBlank (s : String) : Bool := s.data.all Char.isWhitespace

/-- JS truthiness of an optional string field: present and non-empty. -/
def truthy : Option String → Bool
  | none => false
  | some s => decide (s ≠ "")

/-- The updateData object of ContactExchange.handleSubmit applied to a row:
the donor writes donor_phone / donor_address, the requester writes
requester_phone / requester_address; the other four fields are untouched. -/
def contactUpdateData (d : Bool) (phone address : String) (e : ContactExchange) :
    ContactExchange :=
  if d then { e with donor_phone := some phone, donor_address := some address }
  else { e with requester_phone := some phone, requester_address := some address }

/-- The contact_exchanges row produced by the insert branch of handleSubmit:
request_id plus the caller's own two fields, counterpart fields null. -/
def newExchange (d : Bool) (phone address requestId newId : String) : ContactExchange :=
  contactUpdateData d phone address
    { id := newId, request_id := requestId, donor_phone := none, donor_address := none,
      requester_phone := none, requester_address := none }

/-- handleSubmit of ContactExchange.tsx. Returns silently unless a user is
signed in and both phone and address are non-blank; then updates the row with
the given request_id when an existingExchange was passed in, and inserts a
fresh row otherwise. -/
def handleSubmit (storeOk : Bool) (db : DB) (user : Option String)
    (requestId : String) (d : Bool) (phone address : String)
    (existingExchange : Option ContactExchange) (newId : String) : DB × Outcome :=
  match user with
  | none => (db, Outcome.noOp)
  | some _ =>
    if isBlank phone ∨ isBlank address then (db, Outcome.noOp)
    else
      match existingExchange with
      | some _ =>
        if storeOk then
          ({ db with exchanges := db.exchanges.map fun e =>
              if e.request_id = requestId then contactUpdateData d phone address e else e },
           Outcome.shared)
        else (db, Outcome.errorToast)
      | none =>
        if storeOk then
          ({ db with exchanges := db.exchanges ++ [newExchange d phone address requestId newId] },
           Outcome.shared)
        else (db, Outcome.errorToast)

/-- The fetch of MyRequests builds contactExchanges keyed by request_id, so
the existingExchange prop handed to ContactExchange is the row of the table
with that request_id, if any. -/
def lookupExchange (db : DB) (requestId : String) : Option ContactExchange :=
  db.exchanges.find? fun e => decide (e.request_id = requestId)

/-- existingExchange?.[isDonor ? 'donor_phone' : 'requester_phone']:
the viewer's own shared phone field. -/
def ownPhone (e : Option ContactExchange) (d : Bool) : Option String :=
  match e with
  | none => none
  | some ex => if d then ex.donor_phone else ex.requester_phone

/-- existingExchange?.[isDonor ? 'donor_address' : 'requester_address']:
the viewer's own shared address field. -/
def ownAddress (e : Option ContactExchange) (d : Bool) : Option String :=
  match e with
  | none => none
  | some ex => if d then ex.donor_address else ex.requester_address

/-- existingExchange?.[isDonor ? 'requester_phone' : 'donor_phone']:
the counterpart's shared phone field. -/
def otherPersonContact (e : Option ContactExchange) (d : Bool) : Option String :=
  match e with
  | none => none
  | some ex => if d then ex.requester_phone else ex.donor_phone

/-- existingExchange?.[isDonor ? 'requester_address' : 'donor_address']:
the counterpart's shared address field. -/
def otherPersonAddress (e : Option ContactExchange) (d : Bool) : Option String :=
  match e with
  | none => none
  | some ex => if d then ex.requester_address else ex.donor_address

/-- hasSharedContact: truthiness of the viewer's own phone field. -/
def hasSharedContact (e : Option ContactExchange) (d : Bool) : Bool :=
  truthy (ownPhone e d)

/-- What the ContactExchange card renders in its CardContent. -/
inductive ExchangeView where
  | shareForm
  | sharedNoContact
  | sharedWithContact (phone addr : Option String)
deriving DecidableEq

/-- The render logic of ContactExchange.tsx: the share form when the viewer
has not shared yet; otherwise the shared confirmation, with the counterpart's
contact block shown only when otherPersonContact is truthy. -/
def renderContactExchange (e : Option ContactExchange) (d : Bool) : ExchangeView :=
  if hasSharedContact e d then
    if truthy (otherPersonContact e d) then
      ExchangeView.sharedWithContact (otherPersonContact e d) (otherPersonAddress e d)
    else ExchangeView.sharedNoContact
  else ExchangeView.shareForm

/-- markAllAsRead of Notifications.tsx: bulk update read = true on the rows
with userid = user.id and read = false; no-op without a signed-in user or on
a store error. -/
def markAllAsRead (storeOk : Bool) (db : DB) (user : Option String) : DB :=
  match user with
  | none => db
  | some uid =>
    if storeOk then
      { db with notifications := db.notifications.map fun n =>
          if n.userid = uid ∧ n.read = false then { n with read := true } else n }
    else db

/-- Projection of a contact_exchanges row onto its key and the two fields
belonging to the caller's counterpart. -/
def counterpartView (d : Bool) (e : ContactExchange) : String × Option String × Option String :=
  (e.request_id,
   if d then (e.requester_phone, e.requester_address) else (e.donor_phone, e.donor_address))

/-- A sample book used in concrete witnesses, donated by user u1. -/
def bookDune : Book :=
  { id := "b1", title := "Dune", author := "Frank Herbert", description := "", coverurl := "",
    status := "available", isfeatured := false, donorid := "u1", category := "adventure",
    condition := "good" }

/-- A sample pending request from u2 for book b1. -/
def pendingReq : BookRequest :=
  { id := "r1", book_id := "b1", requester_id := "u2", donor_id := "u1", message := "m",
    status := ReqStatus.pending, created_at := "t0", updated_at := "t0" }

/-- A store state holding exactly the one pending request. -/
def dbOnePending : DB := { requests := [pendingReq], notifications := [], exchanges := [] }

/-- The empty store state. -/
def dbEmpty : DB := { requests := [], notifications := [], exchanges := [] }

/-! ## Shared lemmas -/

theorem eq_singleton_of_ne_nil_of_length_le_one {α : Type} {l : List α}
    (h1 : l ≠ []) (h2 : l.length ≤ 1) : ∃ x, l = [x] := by
  match l with
  | [] => exact absurd rfl h1
  | [x] => exact ⟨x, rfl⟩
  | x :: y :: t =>
    simp only [List.length_cons] at h2
    omega

theorem find?_append_of_all_false {α : Type} {p : α → Bool} {l₁ l₂ : List α}
    (h : ∀ a ∈ l₁, p a = false) : (l₁ ++ l₂).find? p = l₂.find? p := by
  induction l₁ with
  | nil => rfl
  | cons x xs ih =>
    have hx := h x (List.mem_cons_self x xs)
    rw [List.cons_append, List.find?_cons_of_neg _ (by simp [hx])]
    exact ih fun a ha => h a (List.mem_cons_of_mem _ ha)

theorem map_eq_self_of_mem {α : Type} {f : α → α} {l : List α}
    (h : ∀ a ∈ l, f a = a) : l.map f = l := by
  induction l with
  | nil => rfl
  | cons x xs ih =>
    simp only [List.map_cons]
    rw [h x (List.mem_cons_self x xs), ih fun a ha => h a (List.mem_cons_of_mem _ ha)]

theorem forall₂_map_self {α β : Type} {r : α → β → Prop} {l : List α} {f : α → β}
    (h : ∀ a ∈ l, r a (f a)) : List.Forall₂ r l (l.map f) := by
  induction l with
  | nil => simp
  | cons x xs ih =>
    exact List.Forall₂.cons (h x (List.mem_cons_self x xs))
      (ih fun a ha => h a (List.mem_cons_of_mem _ ha))

theorem contactUpdateData_request_id (d : Bool) (phone address : String) (e : ContactExchange) :
    (contactUpdateData d phone address e).request_id = e.request_id := by
  cases d <;> rfl

theorem contactUpdateData_idem (d : Bool) (phone address : String) (e : ContactExchange) :
    contactUpdateData d phone address (contactUpdateData d phone address e) =
      contactUpdateData d phone address e := by
  cases d <;> rfl

theorem counterpartView_contactUpdateData (d : Bool) (phone address : String)
    (e : ContactExchange) :
    counterpartView d (contactUpdateData d phone address e) = counterpartView d e := by
  cases d <;> rfl

/-! ## Claims -/

/-- C1: when a pending BookRequest from user uid for book already exists (and,
per the documented ledger invariant, it is the only matching pending row),
a second handleRequestBook call in either BooksList variant ends in the
Already Requested outcome and leaves the ledger and the outbox exactly as
they were: the returned state is the pre-state. -/
theorem c1_duplicate_request_no_write
    (env env2 : StoreEnv) (db : DB) (uid : String) (book : Book)
    (nr nn now nr2 na nb now2 : String)
    (hne : matchingPending db book.id uid ≠ [])
    (hinv : (matchingPending db book.id uid).length ≤ 1)
    (hchk : env.checkErr = false) (hchk2 : env2.checkErr = false) :
    handleRequestBookBase env db (some uid) book nr nn now = (db, Outcome.alreadyRequested) ∧
    handleRequestBookExt env2 db (some uid) false book nr2 na nb now2 =
      (db, Outcome.alreadyRequested) := by
  obtain ⟨x, hx⟩ := eq_singleton_of_ne_nil_of_length_le_one hne hinv
  constructor
  · simp [handleRequestBookBase, hchk, hx, singleRow]
  · simp [handleRequestBookExt, hchk2, hx, singleRow]

theorem c1_duplicate_request_no_write_witness :
    handleRequestBookBase ⟨false, true, true, true⟩ dbOnePending (some "u2") bookDune
      "r9" "n9" "t9" = (dbOnePending, Outcome.alreadyRequested) ∧
    handleRequestBookExt ⟨false, true, true, true⟩ dbOnePending (some "u2") false bookDune
      "r9" "n8" "n7" "t9" = (dbOnePending, Outcome.alreadyRequested) :=
  c1_duplicate_request_no_write ⟨false, true, true, true⟩ ⟨false, true, true, true⟩
    dbOnePending "u2" bookDune "r9" "n9" "t9" "r9" "n8" "n7" "t9"
    (by decide) (by decide) rfl rfl

/-- C2: for a user uid who is not the donor of the book, when no pending
request from uid for the book exists and every store call succeeds,
handleRequestBook appends exactly one new book_requests row, in pending state
and with the auto-populated borrow message, and appends exactly one
book_request notification for the donor; the extended variant additionally
appends the request_sent acknowledgement for the requester. -/
theorem c2_create_request_success
    (db : DB) (uid : String) (book : Book) (nr nn now nr2 na nb now2 : String)
    (hown : uid ≠ book.donorid)
    (hnone : matchingPending db book.id uid = []) :
    (newRequest book uid nr now).status = ReqStatus.pending ∧
    (newRequest book uid nr now).message =
      "I would like to borrow \"" ++ book.title ++ "\" by " ++ book.author ++ "." ∧
    handleRequestBookBase ⟨false, true, true, true⟩ db (some uid) book nr nn now =
      ({ requests := db.requests ++ [newRequest book uid nr now],
         notifications := db.notifications ++
           [{ id := nn, userid := book.donorid, type := "book_request",
              title := "New Book Request",
              message := "Someone wants to borrow your book \"" ++ book.title ++ "\"",
              read := false }],
         exchanges := db.exchanges }, Outcome.requestSent) ∧
    handleRequestBookExt ⟨false, true, true, true⟩ db (some uid) false book nr2 na nb now2 =
      ({ requests := db.requests ++ [newRequest book uid nr2 now2],
         notifications := db.notifications ++
           [{ id := na, userid := book.donorid, type := "book_request",
              title := "New Book Request",
              message := "Someone wants to borrow your book \"" ++ book.title ++ "\"",
              read := false },
            { id := nb, userid := uid, type := "request_sent",
              title := "Request Sent",
              message := "Your request for \"" ++ book.title ++ "\" has been sent to the donor.",
              read := false }],
         exchanges := db.exchanges }, Outcome.requestSent) := by
  refine ⟨rfl, rfl, ?_, ?_⟩
  · simp [handleRequestBookBase, hnone, singleRow]
  · simp [handleRequestBookExt, hnone, singleRow, createNotification]

theorem c2_create_request_success_witness :
    (newRequest bookDune "u2" "r1" "t1").status = ReqStatus.pending ∧
    (newRequest bookDune "u2" "r1" "t1").message =
      "I would like to borrow \"" ++ bookDune.title ++ "\" by " ++ bookDune.author ++ "." ∧
    handleRequestBookBase ⟨false, true, true, true⟩ dbEmpty (some "u2") bookDune "r1" "n1" "t1" =
      ({ requests := dbEmpty.requests ++ [newRequest bookDune "u2" "r1" "t1"],
         notifications := dbEmpty.notifications ++
           [{ id := "n1", userid := bookDune.donorid, type := "book_request",
              title := "New Book Request",
              message := "Someone wants to borrow your book \"" ++ bookDune.title ++ "\"",
              read := false }],
         exchanges := dbEmpty.exchanges }, Outcome.requestSent) ∧
    handleRequestBookExt ⟨false, true, true, true⟩ dbEmpty (some "u2") false bookDune
      "r2" "n2" "n3" "t2" =
      ({ requests := dbEmpty.requests ++ [newRequest bookDune "u2" "r2" "t2"],
         notifications := dbEmpty.notifications ++
           [{ id := "n2", userid := bookDune.donorid, type := "book_request",
              title := "New Book Request",
              message := "Someone wants to borrow your book \"" ++ bookDune.title ++ "\"",
              read := false },
            { id := "n3", userid := "u2", type := "request_sent",
              title := "Request Sent",
              message := "Your request for \"" ++ bookDune.title ++
                "\" has been sent to the donor.",
              read := false }],
         exchanges := dbEmpty.exchanges }, Outcome.requestSent) :=
  c2_create_request_success dbEmpty "u2" bookDune "r1" "n1" "t1" "r2" "n2" "n3" "t2"
    (by decide) (by decide)

/-- C3 counterexample: handleRequestResponse carries no status = 'pending'
condition, so on the single request r1 a successful approve is followed by a
successful reject that overwrites the terminal approved status: both decisions
take effect on the stored record, in the base as well as the extended variant. -/
theorem c3_respond_only_when_pending_counterexample :
    ((handleRequestResponseBase true true dbOnePending "r1" Decision.approved "u2" "Dune"
        "n1").1.requests.map fun r => r.status) = [ReqStatus.approved] ∧
    (handleRequestResponseBase true true
        (handleRequestResponseBase true true dbOnePending "r1" Decision.approved "u2" "Dune"
          "n1").1
        "r1" Decision.rejected "u2" "Dune" "n2").2 = Outcome.updated ∧
    ((handleRequestResponseBase true true
        (handleRequestResponseBase true true dbOnePending "r1" Decision.approved "u2" "Dune"
          "n1").1
        "r1" Decision.rejected "u2" "Dune" "n2").1.requests.map fun r => r.status) =
      [ReqStatus.rejected] ∧
    ((handleRequestResponseExt true true true
        (handleRequestResponseBase true true dbOnePending "r1" Decision.approved "u2" "Dune"
          "n1").1
        (some "u1") false "r1" Decision.rejected "u2" "Dune" "n3" "n4" "t2").1.requests.map
      fun r => r.status) = [ReqStatus.rejected] := by
  decide

/-- The ledger after a successful base respond: only the status column of the
rows with the given id is overwritten. -/
theorem handleRequestResponseBase_requests (notifOk : Bool) (db : DB)
    (requestId : String) (d : Decision) (requesterId bookTitle nid : String) :
    (handleRequestResponseBase true notifOk db requestId d requesterId bookTitle
      nid).1.requests =
      db.requests.map fun a =>
        if a.id = requestId then { a with status := d.toStatus } else a := by
  cases notifOk <;> rfl

/-- The ledger after a successful extended respond: status and updated_at of
the rows with the given id are overwritten. -/
theorem handleRequestResponseExt_requests (notifOk notif2Ok : Bool) (db : DB)
    (user : Option String) (requestId : String) (d : Decision)
    (requesterId bookTitle nid1 nid2 now : String) :
    (handleRequestResponseExt true notifOk notif2Ok db user false requestId d requesterId
      bookTitle nid1 nid2 now).1.requests =
      db.requests.map fun a =>
        if a.id = requestId then { a with status := d.toStatus, updated_at := now } else a := by
  cases user <;> cases notifOk <;> cases notif2Ok <;> rfl

/-- C3 amended: the respond operation applies its decision unconditionally to
every ledger row with the given id, whatever that row's current status
(pending, approved or rejected): after a successful respond, every stored
request whose id is the given requestId carries the decided status. Hence
approve followed by reject both take effect, and only the UI (buttons rendered
only for pending rows, plus the extended variant's in-flight marker) suppresses
re-invocation. -/
theorem c3_amended_respond_overwrites_any_status
    (notifOk notif2Ok : Bool) (db : DB) (user : Option String)
    (requestId : String) (d : Decision) (requesterId bookTitle nid nid1 nid2 now : String)
    (r : BookRequest)
    (hmem : r ∈ (handleRequestResponseBase true notifOk db requestId d requesterId bookTitle
      nid).1.requests)
    (hid : r.id = requestId)
    (r2 : BookRequest)
    (hmem2 : r2 ∈ (handleRequestResponseExt true notifOk notif2Ok db user false requestId d
      requesterId bookTitle nid1 nid2 now).1.requests)
    (hid2 : r2.id = requestId) :
    r.status = d.toStatus ∧ r2.status = d.toStatus := by
  constructor
  · rw [handleRequestResponseBase_requests] at hmem
    obtain ⟨a, _, ha⟩ := List.mem_map.mp hmem
    by_cases hcase : a.id = requestId
    · rw [if_pos hcase] at ha
      rw [← ha]
    · rw [if_neg hcase] at ha
      rw [← ha] at hid
      exact absurd hid hcase
  · rw [handleRequestResponseExt_requests] at hmem2
    obtain ⟨a, _, ha⟩ := List.mem_map.mp hmem2
    by_cases hcase : a.id = requestId
    · rw [if_pos hcase] at ha
      rw [← ha]
    · rw [if_neg hcase] at ha
      rw [← ha] at hid2
      exact absurd hid2 hcase

theorem c3_amended_respond_overwrites_any_status_witness :
    (⟨"r1", "b1", "u2", "u1", "m", ReqStatus.rejected, "t0", "t0"⟩ :
      BookRequest).status = Decision.rejected.toStatus ∧
    (⟨"r1", "b1", "u2", "u1", "m", ReqStatus.rejected, "t0", "t9"⟩ :
      BookRequest).status = Decision.rejected.toStatus :=
  c3_amended_respond_overwrites_any_status true true
    (⟨[⟨"r1", "b1", "u2", "u1", "m", ReqStatus.approved, "t0", "t0"⟩], [], []⟩ : DB)
    (some "u1") "r1" Decision.rejected "u2" "Dune" "n1" "n2" "n3" "t9"
    _ (by decide) rfl _ (by decide) rfl

/-- C4 counterexample: in the base MyRequests variant the update payload is
only the status column, so a fully successful respond (outcome updated, the
request_response notification written) leaves updated_at at its old value t0 --
refuting the part of the claim that says every successful respond updates the
updatedAt timestamp. -/
theorem c4_respond_success_counterexample :
    (handleRequestResponseBase true true dbOnePending "r1" Decision.approved "u2" "Dune"
      "n1").2 = Outcome.updated ∧
    ((handleRequestResponseBase true true dbOnePending "r1" Decision.approved "u2" "Dune"
        "n1").1.requests.map fun r => (r.status, r.updated_at)) =
      [(ReqStatus.approved, "t0")] := by
  decide

/-- C4 amended: a successful respond applies the decision to the targeted
ledger rows and emits a request_response notification with the outcome to the
requester; the extended variant also stamps updated_at and additionally emits
a request_action acknowledgement to the signed-in donor, while the base
variant updates only the status column, leaving updated_at unchanged. -/
theorem c4_amended_respond_success
    (db : DB) (uid : String) (requestId : String) (d : Decision)
    (requesterId bookTitle nid nid1 nid2 now : String) :
    handleRequestResponseExt true true true db (some uid) false requestId d requesterId
      bookTitle nid1 nid2 now =
      ({ requests := db.requests.map fun r =>
           if r.id = requestId then { r with status := d.toStatus, updated_at := now } else r,
         notifications := db.notifications ++
           [{ id := nid1, userid := requesterId, type := "request_response",
              title := "Book Request " ++ d.label,
              message := "Your request for \"" ++ bookTitle ++ "\" has been " ++ d.text ++ ".",
              read := false },
            { id := nid2, userid := uid, type := "request_action",
              title := "Request Updated",
              message := "You have " ++ d.text ++ " the request for \"" ++ bookTitle ++ "\".",
              read := false }],
         exchanges := db.exchanges }, Outcome.updated) ∧
    handleRequestResponseBase true true db requestId d requesterId bookTitle nid =
      ({ requests := db.requests.map fun r =>
           if r.id = requestId then { r with status := d.toStatus } else r,
         notifications := db.notifications ++
           [{ id := nid, userid := requesterId, type := "request_response",
              title := "Book Request " ++ d.label,
              message := "Your request for \"" ++ bookTitle ++ "\" has been " ++ d.text ++ ".",
              read := false }],
         exchanges := db.exchanges }, Outcome.updated) := by
  constructor
  · simp [handleRequestResponseExt, createNotification]
  · simp [handleRequestResponseBase]

/-- C5 counterexample: in the base BooksList variant a failing donor
notification insert is thrown, so with the book_requests insert succeeding and
the notification write failing, handleRequestBook ends in the generic error
toast -- it does not report success -- even though the new request row stays
committed in the ledger. -/
theorem c5_notification_failure_counterexample :
    (handleRequestBookBase ⟨false, true, false, true⟩ dbEmpty (some "u2") bookDune
      "r1" "n1" "t1").2 = Outcome.errorToast ∧
    (handleRequestBookBase ⟨false, true, false, true⟩ dbEmpty (some "u2") bookDune
      "r1" "n1" "t1").1.requests = [newRequest bookDune "u2" "r1" "t1"] := by
  decide

/-- C5 amended: a failing notification write never rolls back the primary
mutation -- the inserted request row, or the applied status update, stays
committed in every variant and the outbox is left unchanged. The extended
variants route notifications through the error-swallowing createNotification
and still report success; the base variants throw the notification error, so
they report the generic failure to the caller despite the committed primary
record. -/
theorem c5_amended_notification_failure_never_rolls_back
    (db : DB) (uid : String) (book : Book) (requestId : String) (d : Decision)
    (requesterId bookTitle nr nn n1 n2 now now2 : String)
    (hnone : matchingPending db book.id uid = []) :
    handleRequestBookExt ⟨false, true, false, false⟩ db (some uid) false book nr n1 n2 now =
      ({ requests := db.requests ++ [newRequest book uid nr now],
         notifications := db.notifications,
         exchanges := db.exchanges }, Outcome.requestSent) ∧
    handleRequestResponseExt true false false db (some uid) false requestId d requesterId
      bookTitle n1 n2 now2 =
      ({ requests := db.requests.map fun r =>
           if r.id = requestId then { r with status := d.toStatus, updated_at := now2 } else r,
         notifications := db.notifications,
         exchanges := db.exchanges }, Outcome.updated) ∧
    handleRequestBookBase ⟨false, true, false, true⟩ db (some uid) book nr nn now =
      ({ requests := db.requests ++ [newRequest book uid nr now],
         notifications := db.notifications,
         exchanges := db.exchanges }, Outcome.errorToast) ∧
    handleRequestResponseBase true false db requestId d requesterId bookTitle n1 =
      ({ requests := db.requests.map fun r =>
           if r.id = requestId then { r with status := d.toStatus } else r,
         notifications := db.notifications,
         exchanges := db.exchanges }, Outcome.errorToast) := by
  refine ⟨?_, ?_, ?_, ?_⟩
  · simp [handleRequestBookExt, hnone, singleRow, createNotification]
  · simp [handleRequestResponseExt, createNotification]
  · simp [handleRequestBookBase, hnone, singleRow]
  · simp [handleRequestResponseBase]

theorem c5_amended_notification_failure_never_rolls_back_witness :
    handleRequestBookExt ⟨false, true, false, false⟩ dbEmpty (some "u2") false bookDune
      "r1" "n1" "n2" "t1" =
      ({ requests := dbEmpty.requests ++ [newRequest bookDune "u2" "r1" "t1"],
         notifications := dbEmpty.notifications,
         exchanges := dbEmpty.exchanges }, Outcome.requestSent) ∧
    handleRequestResponseExt true false false dbEmpty (some "u2") false "r1"
      Decision.approved "u2" "Dune" "n1" "n2" "t2" =
      ({ requests := dbEmpty.requests.map fun r =>
           if r.id = "r1" then
             { r with status := Decision.approved.toStatus, updated_at := "t2" }
           else r,
         notifications := dbEmpty.notifications,
         exchanges := dbEmpty.exchanges }, Outcome.updated) ∧
    handleRequestBookBase ⟨false, true, false, true⟩ dbEmpty (some "u2") bookDune
      "r1" "n1" "t1" =
      ({ requests := dbEmpty.requests ++ [newRequest bookDune "u2" "r1" "t1"],
         notifications := dbEmpty.notifications,
         exchanges := dbEmpty.exchanges }, Outcome.errorToast) ∧
    handleRequestResponseBase true false dbEmpty "r1" Decision.approved "u2" "Dune" "n1" =
      ({ requests := dbEmpty.requests.map fun r =>
           if r.id = "r1" then { r with status := Decision.approved.toStatus } else r,
         notifications := dbEmpty.notifications,
         exchanges := dbEmpty.exchanges }, Outcome.errorToast) :=
  c5_amended_notification_failure_never_rolls_back dbEmpty "u2" bookDune "r1"
    Decision.approved "u2" "Dune" "r1" "n1" "n1" "n2" "t1" "t2" (by decide)

/-- The row inserted by the first contact share carries the submitted
request_id. -/
theorem newExchange_request_id (d : Bool) (phone address requestId newId : String) :
    (newExchange d phone address requestId newId).request_id = requestId := by
  cases d <;> rfl

/-- Re-applying the same party's update with the same values to the freshly
inserted row changes nothing. -/
theorem contactUpdateData_newExchange (d : Bool) (phone address requestId newId : String) :
    contactUpdateData d phone address (newExchange d phone address requestId newId) =
      newExchange d phone address requestId newId :=
  contactUpdateData_idem d phone address _

/-- C6: starting from a table with no row for the request, a party submitting
a non-blank phone and address inserts exactly one row holding them, and -- the
prop being refetched in between -- submitting the same values a second time
goes through the update path and leaves the table in exactly the same state:
one row for the request, its fields for the submitting party holding the
latest submitted values. -/
theorem c6_contact_share_idempotent
    (db : DB) (uid requestId : String) (d : Bool) (phone address nid1 nid2 : String)
    (hphone : isBlank phone = false) (haddr : isBlank address = false)
    (hnone : db.exchanges.filter (fun e => decide (e.request_id = requestId)) = []) :
    handleSubmit true db (some uid) requestId d phone address
        (lookupExchange db requestId) nid1 =
      ({ db with exchanges :=
          db.exchanges ++ [newExchange d phone address requestId nid1] }, Outcome.shared) ∧
    lookupExchange
        { db with exchanges := db.exchanges ++ [newExchange d phone address requestId nid1] }
        requestId = some (newExchange d phone address requestId nid1) ∧
    handleSubmit true
        { db with exchanges := db.exchanges ++ [newExchange d phone address requestId nid1] }
        (some uid) requestId d phone address
        (lookupExchange
          { db with exchanges := db.exchanges ++ [newExchange d phone address requestId nid1] }
          requestId) nid2 =
      ({ db with exchanges :=
          db.exchanges ++ [newExchange d phone address requestId nid1] }, Outcome.shared) ∧
    ({ db with exchanges :=
        db.exchanges ++ [newExchange d phone address requestId nid1] } : DB).exchanges.filter
        (fun e => decide (e.request_id = requestId)) =
      [newExchange d phone address requestId nid1] ∧
    ownPhone (some (newExchange d phone address requestId nid1)) d = some phone ∧
    ownAddress (some (newExchange d phone address requestId nid1)) d = some address := by
  have hall : ∀ e ∈ db.exchanges, ¬e.request_id = requestId := by
    intro e he
    have := List.filter_eq_nil_iff.mp hnone e he
    simpa using this
  have hlook : lookupExchange db requestId = none := by
    rw [lookupExchange, List.find?_eq_none]
    intro e he
    simpa using hall e he
  have hlook2 : lookupExchange
      { db with exchanges := db.exchanges ++ [newExchange d phone address requestId nid1] }
      requestId = some (newExchange d phone address requestId nid1) := by
    rw [lookupExchange]
    rw [show ({ db with exchanges :=
        db.exchanges ++ [newExchange d phone address requestId nid1] } : DB).exchanges =
      db.exchanges ++ [newExchange d phone address requestId nid1] from rfl]
    rw [find?_append_of_all_false (fun e he => by simpa using hall e he)]
    simp [newExchange_request_id]
  refine ⟨?_, hlook2, ?_, ?_, ?_, ?_⟩
  · simp [handleSubmit, hlook, hphone, haddr]
  · rw [hlook2]
    simp only [handleSubmit, hphone, haddr]
    simp only [Bool.false_eq_true, false_or, if_false]
    rw [List.map_append]
    rw [map_eq_self_of_mem (fun e he => by
      rw [if_neg (hall e he)])]
    simp [newExchange_request_id, contactUpdateData_newExchange]
  · rw [show ({ db with exchanges :=
        db.exchanges ++ [newExchange d phone address requestId nid1] } : DB).exchanges =
      db.exchanges ++ [newExchange d phone address requestId nid1] from rfl]
    rw [List.filter_append, hnone]
    simp [newExchange_request_id]
  · cases d <;> rfl
  · cases d <;> rfl

theorem c6_contact_share_idempotent_witness :
    handleSubmit true dbEmpty (some "u2") "r1" false "555-0100" "12 Oak St"
        (lookupExchange dbEmpty "r1") "e1" =
      ({ dbEmpty with exchanges :=
          dbEmpty.exchanges ++ [newExchange false "555-0100" "12 Oak St" "r1" "e1"] },
       Outcome.shared) ∧
    lookupExchange
        { dbEmpty with exchanges :=
            dbEmpty.exchanges ++ [newExchange false "555-0100" "12 Oak St" "r1" "e1"] }
        "r1" = some (newExchange false "555-0100" "12 Oak St" "r1" "e1") ∧
    handleSubmit true
        { dbEmpty with exchanges :=
            dbEmpty.exchanges ++ [newExchange false "555-0100" "12 Oak St" "r1" "e1"] }
        (some "u2") "r1" false "555-0100" "12 Oak St"
        (lookupExchange
          { dbEmpty with exchanges :=
              dbEmpty.exchanges ++ [newExchange false "555-0100" "12 Oak St" "r1" "e1"] }
          "r1") "e2" =
      ({ dbEmpty with exchanges :=
          dbEmpty.exchanges ++ [newExchange false "555-0100" "12 Oak St" "r1" "e1"] },
       Outcome.shared) ∧
    ({ dbEmpty with exchanges :=
        dbEmpty.exchanges ++ [newExchange false "555-0100" "12 Oak St" "r1" "e1"] } :
        DB).exchanges.filter (fun e => decide (e.request_id = "r1")) =
      [newExchange false "555-0100" "12 Oak St" "r1" "e1"] ∧
    ownPhone (some (newExchange false "555-0100" "12 Oak St" "r1" "e1")) false =
      some "555-0100" ∧
    ownAddress (some (newExchange false "555-0100" "12 Oak St" "r1" "e1")) false =
      some "12 Oak St" :=
  c6_contact_share_idempotent dbEmpty "u2" "r1" false "555-0100" "12 Oak St" "e1" "e2"
    (by decide) (by decide) (by decide)

/-- C7: a contact share writes only the submitting party's own two fields:
projected onto the key and the counterpart's phone / address, the table after
handleSubmit is the old projection unchanged, plus -- only on the insert
path -- a new row whose counterpart fields are still null. -/
theorem c7_submit_writes_only_own_fields
    (db : DB) (uid requestId : String) (d : Bool) (phone address : String)
    (existing : Option ContactExchange) (nid : String)
    (hphone : isBlank phone = false) (haddr : isBlank address = false) :
    (handleSubmit true db (some uid) requestId d phone address existing nid).1.exchanges.map
        (counterpartView d) =
      db.exchanges.map (counterpartView d) ++
        (match existing with
         | some _ => []
         | none => [(requestId, none, none)]) := by
  cases existing with
  | none =>
    simp only [handleSubmit, hphone, haddr]
    simp only [Bool.false_eq_true, false_or, if_false, if_true]
    rw [List.map_append]
    congr 1
    cases d <;> rfl
  | some ex =>
    simp only [handleSubmit, hphone, haddr]
    simp only [Bool.false_eq_true, false_or, if_false, if_true]
    rw [List.append_nil, List.map_map]
    refine List.map_congr_left fun e _ => ?_
    by_cases hc : e.request_id = requestId
    · simp [hc, counterpartView_contactUpdateData]
    · simp [hc]

theorem c7_submit_writes_only_own_fields_witness :
    ((handleSubmit true
        ({ requests := [], notifications := [],
           exchanges := [⟨"e1", "r1", some "555-0200", some "9 Elm Ave", none, none⟩] } : DB)
        (some "u2") "r1" false "555-0100" "12 Oak St"
        (some ⟨"e1", "r1", some "555-0200", some "9 Elm Ave", none, none⟩)
        "e9").1.exchanges.map (counterpartView false)) =
      (({ requests := [], notifications := [],
          exchanges := [⟨"e1", "r1", some "555-0200", some "9 Elm Ave", none, none⟩] } :
          DB).exchanges.map (counterpartView false)) ++ [] :=
  c7_submit_writes_only_own_fields
    ({ requests := [], notifications := [],
       exchanges := [⟨"e1", "r1", some "555-0200", some "9 Elm Ave", none, none⟩] } : DB)
    "u2" "r1" false "555-0100" "12 Oak St"
    (some ⟨"e1", "r1", some "555-0200", some "9 Elm Ave", none, none⟩) "e9"
    (by decide) (by decide)

/-- C8 counterexample: on the exchange row where the donor has shared
phone 555-0100 / address 12 Oak St and the requester has shared nothing,
the requester's card -- although the counterpart's contact is present and
truthy -- renders the share form, not the counterpart's contact: the reveal
IS conditioned on the viewer having shared first. -/
theorem c8_reveal_counterexample :
    truthy (otherPersonContact
      (some ⟨"e1", "r1", some "555-0100", some "12 Oak St", none, none⟩) false) = true ∧
    hasSharedContact
      (some ⟨"e1", "r1", some "555-0100", some "12 Oak St", none, none⟩) false = false ∧
    renderContactExchange
      (some ⟨"e1", "r1", some "555-0100", some "12 Oak St", none, none⟩) false =
      ExchangeView.shareForm := by
  decide

/-- C8 amended: the counterpart's contact fields are revealed only after the
viewer has shared their own: with the viewer's own phone field not truthy the
card renders the share form whatever the counterpart has shared (in
particular, right after the counterpart's first share into an empty table the
viewer still sees the form); once the viewer has shared and the counterpart's
phone is truthy, the counterpart's phone and address are shown. -/
theorem c8_amended_reveal_gated_on_viewer_share
    (e : Option ContactExchange) (d : Bool) (db : DB)
    (uid requestId phone address nid : String)
    (hphone : isBlank phone = false) (haddr : isBlank address = false)
    (hnone : db.exchanges.filter (fun x => decide (x.request_id = requestId)) = []) :
    (hasSharedContact e d = false → renderContactExchange e d = ExchangeView.shareForm) ∧
    (hasSharedContact e d = true → truthy (otherPersonContact e d) = true →
      renderContactExchange e d =
        ExchangeView.sharedWithContact (otherPersonContact e d) (otherPersonAddress e d)) ∧
    renderContactExchange
      (lookupExchange
        (handleSubmit true db (some uid) requestId (!d) phone address
          (lookupExchange db requestId) nid).1 requestId) d = ExchangeView.shareForm := by
  have hall : ∀ x ∈ db.exchanges, ¬x.request_id = requestId := by
    intro x hx
    have := List.filter_eq_nil_iff.mp hnone x hx
    simpa using this
  have hlook : lookupExchange db requestId = none := by
    rw [lookupExchange, List.find?_eq_none]
    intro x hx
    simpa using hall x hx
  refine ⟨?_, ?_, ?_⟩
  · intro h
    simp [renderContactExchange, h]
  · intro h1 h2
    simp [renderContactExchange, h1, h2]
  · have hsub : (handleSubmit true db (some uid) requestId (!d) phone address
        (lookupExchange db requestId) nid).1 =
        { db with exchanges := db.exchanges ++ [newExchange (!d) phone address requestId nid] } := by
      simp [handleSubmit, hlook, hphone, haddr]
    rw [hsub]
    have hlook2 : lookupExchange
        { db with exchanges := db.exchanges ++ [newExchange (!d) phone address requestId nid] }
        requestId = some (newExchange (!d) phone address requestId nid) := by
      rw [lookupExchange]
      rw [show ({ db with exchanges :=
          db.exchanges ++ [newExchange (!d) phone address requestId nid] } : DB).exchanges =
        db.exchanges ++ [newExchange (!d) phone address requestId nid] from rfl]
      rw [find?_append_of_all_false (fun x hx => by simpa using hall x hx)]
      simp [newExchange_request_id]
    rw [hlook2]
    cases d <;> rfl

theorem c8_amended_reveal_gated_on_viewer_share_witness :
    (hasSharedContact
        (some ⟨"e1", "r1", some "555-0100", some "12 Oak St", none, none⟩) false = false →
      renderContactExchange
        (some ⟨"e1", "r1", some "555-0100", some "12 Oak St", none, none⟩) false =
        ExchangeView.shareForm) ∧
    (hasSharedContact
        (some ⟨"e1", "r1", some "555-0100", some "12 Oak St", none, none⟩) false = true →
      truthy (otherPersonContact
        (some ⟨"e1", "r1", some "555-0100", some "12 Oak St", none, none⟩) false) = true →
      renderContactExchange
        (some ⟨"e1", "r1", some "555-0100", some "12 Oak St", none, none⟩) false =
        ExchangeView.sharedWithContact
          (otherPersonContact
            (some ⟨"e1", "r1", some "555-0100", some "12 Oak St", none, none⟩) false)
          (otherPersonAddress
            (some ⟨"e1", "r1", some "555-0100", some "12 Oak St", none, none⟩) false)) ∧
    renderContactExchange
      (lookupExchange
        (handleSubmit true dbEmpty (some "u1") "r1" (!false) "555-0100" "12 Oak St"
          (lookupExchange dbEmpty "r1") "e1").1 "r1") false = ExchangeView.shareForm :=
  c8_amended_reveal_gated_on_viewer_share
    (some ⟨"e1", "r1", some "555-0100", some "12 Oak St", none, none⟩) false dbEmpty
    "u1" "r1" "555-0100" "12 Oak St" "e1" (by decide) (by decide) (by decide)

/-- C9: markAllAsRead for the signed-in user maps the outbox row-for-row:
every row owned by that user ends with read = true (rows already read are
re-stated unchanged), every row owned by anyone else is returned identical,
and the ledger and exchange tables are untouched. -/
theorem c9_mark_all_as_read_scoped_to_user
    (db : DB) (uid : String) :
    List.Forall₂ (fun n n' =>
        n' = if n.userid = uid then { n with read := true } else n)
      db.notifications (markAllAsRead true db (some uid)).notifications ∧
    (markAllAsRead true db (some uid)).requests = db.requests ∧
    (markAllAsRead true db (some uid)).exchanges = db.exchanges := by
  refine ⟨?_, rfl, rfl⟩
  have hnot : (markAllAsRead true db (some uid)).notifications =
      db.notifications.map fun n =>
        if n.userid = uid ∧ n.read = false then { n with read := true } else n := rfl
  rw [hnot]
  refine forall₂_map_self fun a _ => ?_
  rcases a with ⟨i, u, ty, ti, m, r⟩
  by_cases hu : u = uid <;> cases r <;> simp [hu]

/-- C10: the error of the duplicate-check query is discarded (only its data
field is read), so with that query failing the create-request operation, on
any ledger whatsoever -- even one already holding a matching pending
request -- never reports Already Requested and proceeds straight to the
insert, branching only on the insert and notification oracles. -/
theorem c10_check_error_discarded
    (db : DB) (uid : String) (book : Book) (iOk nOk n2Ok : Bool)
    (nr nn now nr2 na nb now2 : String) :
    handleRequestBookBase ⟨true, iOk, nOk, n2Ok⟩ db (some uid) book nr nn now =
      (if iOk then
         if nOk then
           ({ requests := db.requests ++ [newRequest book uid nr now],
              notifications := db.notifications ++
                [{ id := nn, userid := book.donorid, type := "book_request",
                   title := "New Book Request",
                   message := "Someone wants to borrow your book \"" ++ book.title ++ "\"",
                   read := false }],
              exchanges := db.exchanges }, Outcome.requestSent)
         else
           ({ db with requests := db.requests ++ [newRequest book uid nr now] },
            Outcome.errorToast)
       else (db, Outcome.errorToast)) ∧
    handleRequestBookExt ⟨true, iOk, nOk, n2Ok⟩ db (some uid) false book nr2 na nb now2 =
      (if iOk then
         (createNotification n2Ok
            (createNotification nOk
              { db with requests := db.requests ++ [newRequest book uid nr2 now2] }
              na book.donorid "book_request" "New Book Request"
              ("Someone wants to borrow your book \"" ++ book.title ++ "\""))
            nb uid "request_sent" "Request Sent"
            ("Your request for \"" ++ book.title ++ "\" has been sent to the donor."),
          Outcome.requestSent)
       else (db, Outcome.errorToast)) ∧
    (handleRequestBookBase ⟨true, iOk, nOk, n2Ok⟩ db (some uid) book nr nn now).2 ≠
      Outcome.alreadyRequested ∧
    (handleRequestBookExt ⟨true, iOk, nOk, n2Ok⟩ db (some uid) false book nr2 na nb now2).2 ≠
      Outcome.alreadyRequested := by
  cases iOk <;> cases nOk <;> cases n2Ok <;>
    simp [handleRequestBookBase, handleRequestBookExt, createNotification]

end BookBridge
